import Mathlib

/-!
Shallow embedding of the container-supervisor Durable Object in
`src/load-balancer/src/index.ts`.

Each method of the `Container` class is modelled as a pure function from the
supervisor's observable state (`Sup`: the persisted storage key, the pending
alarm slot, the runtime's running flag, whether a monitor handle is tracked)
to an event trace (`Ev`) together with the resulting state.  Asynchronous
inputs that come from outside the class — the outcome of `port.fetch`, the
settlement of the monitor promise, whether `container.destroy()` fails — are
passed in as explicit parameters.  `ctx.blockConcurrencyWhile` is modelled
by the `enterCS` / `exitCS` trace events bracketing the critical section.
-/

namespace LoadBalancer

/-- The five persisted lifecycle states of `ContainerState` in the source. -/
inductive ContainerState
  | starting
  | running
  | unhealthy
  | stopped
  | failed
  deriving DecidableEq, Repr

/-- A transport-level error, carrying only the message the classifier inspects. -/
structure ErrorMsg where
  message : String
  deriving DecidableEq, Repr

/-- An HTTP response; only the status code matters to the supervisor. -/
structure Response where
  status : Nat
  deriving DecidableEq, Repr

/-- `res.ok` of the fetch API: status in the 2xx range. -/
def Response.ok (r : Response) : Bool :=
  decide (200 ≤ r.status ∧ r.status < 300)

/-- `wrap` from the source: settle a fallible computation into a sum instead
of letting it propagate (`[data, null] | [null, err]`). -/
def wrap {T E : Type} (fn : Except E T) : Sum T E :=
  match fn with
  | .ok data => .inl data
  | .error err => .inr err

/-- Whether `pat` occurs as a contiguous substring of `s`
(the model of JavaScript `String.prototype.includes`). -/
def containsSub (s pat : String) : Bool :=
  s.data.tails.any (fun t => pat.data.isPrefixOf t)

def notListeningPattern : String := "the container is not listening"

def noContainerPattern : String := "there is no container instance"

/-- `isNotListeningError` from the source. -/
def isNotListeningError (err : ErrorMsg) : Bool :=
  containsSub err.message notListeningPattern

/-- `noContainerYetError` from the source. -/
def noContainerYetError (err : ErrorMsg) : Bool :=
  containsSub err.message noContainerPattern

/-- The three string results `healthCheck` can return besides a `Response`
(the TS type is the union of these three string literals and `Response`). -/
inductive HCTag
  | ok
  | not_listening
  | no_container_yet
  deriving DecidableEq, Repr

/-- Observable events of a method execution, in program order. -/
inductive Ev
  | enterCS
  | exitCS
  | getState
  | putState (s : ContainerState)
  | sync
  | getAlarm
  | setAlarmAt (t : Nat)
  | deleteAll
  | deleteAlarm
  | containerDestroy
  | abortCtx
  | fetchHealth (port : Nat)
  | drainBody
  | containerStart (opts : Option Nat)
  | attachMonitor
  deriving DecidableEq, Repr

/-- The supervisor's observable state: the persisted storage value under the
single key, the pending alarm slot, the runtime handle's `running` flag, and
whether a monitor promise is currently tracked (`this.monitor !== undefined`). -/
structure Sup where
  storageState : Option ContainerState
  alarm : Option Nat
  running : Bool
  monitor : Bool
  deriving DecidableEq, Repr

/-- The `state()` method: read the persisted key, absent defaults to starting. -/
def stateRead (sup : Sup) : ContainerState :=
  sup.storageState.getD ContainerState.starting

/-- The `setState` method: durable put of the state key followed by a sync. -/
def setState (sup : Sup) (s : ContainerState) : List Ev × Sup :=
  ([Ev.putState s, Ev.sync], { sup with storageState := some s })

/-- The `setAlarm` method: read the pending alarm; only when none is pending,
set one at `value` and sync.  A pending alarm is never overwritten. -/
def setAlarm (sup : Sup) (value : Nat) : List Ev × Sup :=
  match sup.alarm with
  | none => ([Ev.getAlarm, Ev.setAlarmAt value, Ev.sync], { sup with alarm := some value })
  | some _ => ([Ev.getAlarm], sup)

/-- The `stateTx` method: inside `ctx.blockConcurrencyWhile`, read the current
state and run the callback on it. -/
def stateTx (sup : Sup) (cb : ContainerState → Sup → List Ev × Sup) : List Ev × Sup :=
  let s := stateRead sup
  let (t, sup') := cb s sup
  ([Ev.enterCS, Ev.getState] ++ t ++ [Ev.exitCS], sup')

/-- The `healthCheck` method, parameterised by the outcome `fetchRes` of
`port.fetch` on the health path.  A 2xx response is drained and yields the
ok tag; a non-2xx response is returned as-is; a transport error is classified
by message, and re-raised when it matches neither pattern. -/
def healthCheck (fetchRes : Except ErrorMsg Response) (portNumber : Nat := 8000) :
    List Ev × Except ErrorMsg (Sum HCTag Response) :=
  match wrap fetchRes with
  | .inr err =>
    if isNotListeningError err then
      ([Ev.fetchHealth portNumber], .ok (.inl HCTag.not_listening))
    else if noContainerYetError err then
      ([Ev.fetchHealth portNumber], .ok (.inl HCTag.no_container_yet))
    else
      ([Ev.fetchHealth portNumber], .error err)
  | .inl res =>
    if res.ok then
      ([Ev.fetchHealth portNumber, Ev.drainBody], .ok (.inl HCTag.ok))
    else
      ([Ev.fetchHealth portNumber], .ok (.inr res))

/-- The body of the `alarm` method: inside `stateTx`, run a wrapped
`healthCheck` and apply the transition logic of the source line by line.
Every fallible call in the body (`healthCheck`, draining the response body)
is wrapped, so the body is total. -/
def alarmBody (fetchRes : Except ErrorMsg Response) (sup : Sup) : List Ev × Sup :=
  stateTx sup (fun state sup =>
    let (htr, hres) := healthCheck fetchRes
    match wrap hres with
    | .inr _err =>
      if state ≠ ContainerState.starting then
        let (t, sup') := setState sup ContainerState.failed
        (htr ++ t, sup')
      else
        (htr, sup)
    | .inl result =>
      match result with
      | .inr _r =>
        let (t, sup') := setState sup ContainerState.unhealthy
        (htr ++ [Ev.drainBody] ++ t, sup')
      | .inl s =>
        if s = HCTag.ok then
          let (t, sup') := setState sup ContainerState.running
          (htr ++ t, sup')
        else if s = HCTag.not_listening ∨ s = HCTag.no_container_yet then
          let (t, sup') := setState sup ContainerState.starting
          (htr ++ t, sup')
        else
          (htr, sup))

/-- The try/finally shape of the `alarm` method: run the body (whatever it is
and however it ends, normally or with an exception), then unconditionally run
`setAlarm` with the default value `Date.now() + 500` before returning; an
exception from the body propagates only after the rescheduling step. -/
def alarmWith (now : Nat) (body : Sup → List Ev × Sup × Option ErrorMsg) (sup : Sup) :
    List Ev × Sup × Option ErrorMsg :=
  let (t, sup', e) := body sup
  let (ta, sup'') := setAlarm sup' (now + 500)
  (t ++ ta, sup'', e)

/-- The `alarm` method: the actual body run under the try/finally shape.
The body never raises, because its only fallible calls are wrapped. -/
def alarm (now : Nat) (fetchRes : Except ErrorMsg Response) (sup : Sup) :
    List Ev × Sup × Option ErrorMsg :=
  alarmWith now (fun s =>
    let (t, s') := alarmBody fetchRes s
    (t, s', none)) sup

/-- The `.then` handler installed by `handleMonitorPromise`: inside `stateTx`,
running or unhealthy becomes stopped; starting and failed are logged and left
unchanged (as is stopped, which falls through every branch). -/
def monitorResolved (sup : Sup) : List Ev × Sup :=
  stateTx sup (fun state sup =>
    if state = ContainerState.running ∨ state = ContainerState.unhealthy then
      setState sup ContainerState.stopped
    else
      ([], sup))

/-- The `.catch` handler installed by `handleMonitorPromise`: a direct
`setState('failed')`, not routed through `stateTx`. -/
def monitorRejected (sup : Sup) : List Ev × Sup :=
  setState sup ContainerState.failed

/-- The `start` method: when the runtime is already running, only attach a
monitor if none is tracked; otherwise persist starting, start the runtime
with the given options, and attach a fresh monitor. -/
def start (opts : Option Nat) (sup : Sup) : List Ev × Sup :=
  if sup.running then
    if sup.monitor = false then
      ([Ev.attachMonitor], { sup with monitor := true })
    else
      ([], sup)
  else
    let (t, sup') := setState sup ContainerState.starting
    (t ++ [Ev.containerStart opts, Ev.attachMonitor],
      { sup' with running := true, monitor := true })

/-- The `destroy` method, parameterised by whether `container.destroy()`
fails: delete all persisted storage, delete the pending alarm, request
runtime destroy, and in the finally block abort the execution context —
so the caller always receives a termination signal (the final `Bool`). -/
def destroy (destroyErr : Option ErrorMsg) (sup : Sup) : List Ev × Sup × Bool :=
  let sup1 : Sup := { sup with storageState := none }
  let sup2 : Sup := { sup1 with alarm := none }
  match destroyErr with
  | none => ([Ev.deleteAll, Ev.deleteAlarm, Ev.containerDestroy, Ev.abortCtx], sup2, true)
  | some _ => ([Ev.deleteAll, Ev.deleteAlarm, Ev.containerDestroy, Ev.abortCtx], sup2, true)

/-- The constructor: if the execution context exposes no container handle,
throw before any initialisation; otherwise, inside `blockConcurrencyWhile`,
attach a monitor when the runtime is already running and none is tracked,
then ensure an alarm is pending (trigger ASAP at `Date.now()`). -/
def construct (now : Nat) (container : Option Bool) (storage : Option ContainerState)
    (alarmSlot : Option Nat) : Except ErrorMsg (List Ev × Sup) :=
  match container with
  | none => .error ⟨"container is not defined"⟩
  | some running =>
    let sup0 : Sup := ⟨storage, alarmSlot, running, false⟩
    let (t1, sup1) :=
      if sup0.running ∧ sup0.monitor = false then
        ([Ev.attachMonitor], { sup0 with monitor := true })
      else
        ([], sup0)
    let (t2, sup2) := setAlarm sup1 now
    .ok ([Ev.enterCS] ++ t1 ++ t2 ++ [Ev.exitCS], sup2)

/-!
Spec-side definitions (for the refinement claims): the transition table and
probe classification exactly as the spec states them, to be compared with the
embedded code above.
-/

/-- Modelled from the spec: the `HealthCheckResult` discriminated outcome of
one probe (§3 of the spec). -/
inductive SpecProbeResult
  | ok
  | notListening
  | noContainerYet
  | httpResponse (status : Nat)
  | genericError
  deriving DecidableEq, Repr

/-- Modelled from the spec: classify a raw fetch outcome into a
`SpecProbeResult`, following the spec's words in §4.1 (2xx is Ok, non-2xx is
HttpResponse, transport failures classified by what the message indicates). -/
def specClassify (fetchRes : Except ErrorMsg Response) : SpecProbeResult :=
  match fetchRes with
  | .ok r => if r.ok then .ok else .httpResponse r.status
  | .error e =>
    if isNotListeningError e then .notListening
    else if noContainerYetError e then .noContainerYet
    else .genericError

/-- Modelled from the spec: the tick transition table of §4.1 (input: current
state and probe result; output: new state). -/
def specTransition (s : ContainerState) : SpecProbeResult → ContainerState
  | .ok => .running
  | .notListening => .starting
  | .noContainerYet => .starting
  | .httpResponse _ => .unhealthy
  | .genericError => if s = ContainerState.starting then .starting else .failed

/-- Trace predicate: every write of the unhealthy state is preceded by a
body-drain event (the response body is consumed before the state write). -/
def drainBeforeWrite : List Ev → Bool → Bool
  | [], _ => true
  | Ev.drainBody :: rest, _ => drainBeforeWrite rest true
  | Ev.putState ContainerState.unhealthy :: rest, d => d && drainBeforeWrite rest d
  | _ :: rest, d => drainBeforeWrite rest d

/-- Trace predicate: every state observation (`getState`) and state mutation
(`putState`) happens at positive critical-section depth, i.e. between an
`enterCS` and its matching `exitCS`. -/
def stateOpsInCS : List Ev → Nat → Bool
  | [], _ => true
  | Ev.enterCS :: rest, d => stateOpsInCS rest (d + 1)
  | Ev.exitCS :: rest, d => stateOpsInCS rest (d - 1)
  | Ev.getState :: rest, d => decide (0 < d) && stateOpsInCS rest d
  | Ev.putState _ :: rest, d => decide (0 < d) && stateOpsInCS rest d
  | _ :: rest, d => stateOpsInCS rest d

/-- The quiescent states reachable in a supervisor's lifetime: a successful
construction, then any interleaving of alarm firings (the runtime consumes
the pending alarm before invoking the handler), start calls, and monitor
settlements.  `destroy` is terminal and ends the lifetime. -/
inductive Reaches : Sup → Prop
  | init (now : Nat) (c : Bool) (storage : Option ContainerState) (aslot : Option Nat)
      (t : List Ev) (sup : Sup) :
      construct now (some c) storage aslot = .ok (t, sup) → Reaches sup
  | fire (sup : Sup) (now : Nat) (fetchRes : Except ErrorMsg Response) :
      Reaches sup → sup.alarm.isSome →
      Reaches (alarm now fetchRes { sup with alarm := none }).2.1
  | startStep (sup : Sup) (opts : Option Nat) :
      Reaches sup → Reaches (start opts sup).2
  | monitorOkStep (sup : Sup) :
      Reaches sup → Reaches (monitorResolved sup).2
  | monitorErrStep (sup : Sup) :
      Reaches sup → Reaches (monitorRejected sup).2

/-! Helper lemmas shared by the claim theorems. -/

lemma setAlarm_storageState (s : Sup) (v : Nat) :
    ((setAlarm s v).2).storageState = s.storageState := by
  cases h : s.alarm <;> simp [setAlarm, h]

lemma setAlarm_isSome (s : Sup) (v : Nat) :
    ((setAlarm s v).2).alarm.isSome = true := by
  cases h : s.alarm <;> simp [setAlarm, h]

lemma setAlarm_keep (s : Sup) (v ts : Nat) (h : s.alarm = some ts) :
    (setAlarm s v).2 = s ∧ (setAlarm s v).1 = [Ev.getAlarm] := by
  simp [setAlarm, h]

lemma alarm_split (now : Nat) (fetchRes : Except ErrorMsg Response) (sup : Sup) :
    alarm now fetchRes sup =
      ((alarmBody fetchRes sup).1 ++ (setAlarm (alarmBody fetchRes sup).2 (now + 500)).1,
       (setAlarm (alarmBody fetchRes sup).2 (now + 500)).2, none) := by
  simp [alarm, alarmWith]

lemma healthCheck_2xx (r : Response) (port : Nat) (h : r.ok = true) :
    healthCheck (.ok r) port = ([Ev.fetchHealth port, Ev.drainBody], .ok (.inl HCTag.ok)) := by
  simp [healthCheck, wrap, h]

lemma healthCheck_non2xx (r : Response) (port : Nat) (h : r.ok = false) :
    healthCheck (.ok r) port = ([Ev.fetchHealth port], .ok (.inr r)) := by
  simp [healthCheck, wrap, h]

lemma healthCheck_notListening (e : ErrorMsg) (port : Nat)
    (h : isNotListeningError e = true) :
    healthCheck (.error e) port = ([Ev.fetchHealth port], .ok (.inl HCTag.not_listening)) := by
  simp [healthCheck, wrap, h]

lemma healthCheck_noContainer (e : ErrorMsg) (port : Nat)
    (h1 : isNotListeningError e = false) (h2 : noContainerYetError e = true) :
    healthCheck (.error e) port = ([Ev.fetchHealth port], .ok (.inl HCTag.no_container_yet)) := by
  simp [healthCheck, wrap, h1, h2]

lemma healthCheck_raise (e : ErrorMsg) (port : Nat)
    (h1 : isNotListeningError e = false) (h2 : noContainerYetError e = false) :
    healthCheck (.error e) port = ([Ev.fetchHealth port], .error e) := by
  simp [healthCheck, wrap, h1, h2]

lemma drainBeforeWrite_append (t1 t2 : List Ev) (d : Bool)
    (h1 : drainBeforeWrite t1 d = true)
    (h2 : ∀ d', drainBeforeWrite t2 d' = true) :
    drainBeforeWrite (t1 ++ t2) d = true := by
  induction t1 generalizing d with
  | nil => simpa using h2 d
  | cons e rest ih =>
    cases e
    case putState s =>
      cases s
      case unhealthy =>
        simp only [List.cons_append, drainBeforeWrite, Bool.and_eq_true] at h1 ⊢
        exact ⟨h1.1, ih d h1.2⟩
      all_goals
        simp only [List.cons_append, drainBeforeWrite] at h1 ⊢
        exact ih d h1
    case drainBody =>
      simp only [List.cons_append, drainBeforeWrite] at h1 ⊢
      exact ih true h1
    all_goals
      simp only [List.cons_append, drainBeforeWrite] at h1 ⊢
      exact ih d h1

lemma drainBeforeWrite_setAlarm (s : Sup) (v : Nat) (d : Bool) :
    drainBeforeWrite ((setAlarm s v).1) d = true := by
  cases h : s.alarm <;> simp [setAlarm, h, drainBeforeWrite]

lemma alarmBody_drain (fetchRes : Except ErrorMsg Response) (sup : Sup) :
    drainBeforeWrite (alarmBody fetchRes sup).1 false = true := by
  cases fetchRes with
  | ok r =>
    cases hr : r.ok
    · simp only [alarmBody]
      simp only [healthCheck_non2xx r 8000 hr]
      simp [stateTx, wrap, setState, drainBeforeWrite]
    · simp only [alarmBody]
      simp only [healthCheck_2xx r 8000 hr]
      simp [stateTx, wrap, setState, drainBeforeWrite]
  | error e =>
    cases hnl : isNotListeningError e
    · cases hnc : noContainerYetError e
      · obtain ⟨sst, al, rn, mn⟩ := sup
        simp only [alarmBody]
        simp only [healthCheck_raise e 8000 hnl hnc]
        cases sst with
        | none => simp [stateTx, wrap, setState, stateRead, drainBeforeWrite]
        | some s => cases s <;> simp [stateTx, wrap, setState, stateRead, drainBeforeWrite]
      · simp only [alarmBody]
        simp only [healthCheck_noContainer e 8000 hnl hnc]
        simp [stateTx, wrap, setState, drainBeforeWrite]
    · simp only [alarmBody]
      simp only [healthCheck_notListening e 8000 hnl]
      simp [stateTx, wrap, setState, drainBeforeWrite]

lemma alarmBody_state (fetchRes : Except ErrorMsg Response) (sup : Sup) :
    stateRead (alarmBody fetchRes sup).2 =
      specTransition (stateRead sup) (specClassify fetchRes) := by
  cases fetchRes with
  | ok r =>
    cases hr : r.ok
    · simp only [alarmBody]
      simp only [healthCheck_non2xx r 8000 hr]
      simp [stateTx, wrap, setState, specClassify, specTransition, stateRead, hr]
    · simp only [alarmBody]
      simp only [healthCheck_2xx r 8000 hr]
      simp [stateTx, wrap, setState, specClassify, specTransition, stateRead, hr]
  | error e =>
    cases hnl : isNotListeningError e
    · cases hnc : noContainerYetError e
      · obtain ⟨sst, al, rn, mn⟩ := sup
        simp only [alarmBody]
        simp only [healthCheck_raise e 8000 hnl hnc]
        cases sst with
        | none =>
          simp [stateTx, wrap, setState, specClassify, specTransition, stateRead, hnl, hnc]
        | some s =>
          cases s <;>
            simp [stateTx, wrap, setState, specClassify, specTransition, stateRead, hnl, hnc]
      · simp only [alarmBody]
        simp only [healthCheck_noContainer e 8000 hnl hnc]
        simp [stateTx, wrap, setState, specClassify, specTransition, stateRead, hnl, hnc]
    · simp only [alarmBody]
      simp only [healthCheck_notListening e 8000 hnl]
      simp [stateTx, wrap, setState, specClassify, specTransition, stateRead, hnl]

/-- Claim C1: one execution of the timer-driven tick (`alarm`) sets the
persisted state according to the transition table — Ok yields running,
NotListening and NoContainerYet yield starting, a non-2xx response yields
unhealthy with the body drained before the state write, and a generic probe
error yields failed unless the current state is starting, which is kept; the
absent-on-first-read state is read as starting. -/
theorem claim_C1_tick_transition_table (now : Nat) (fetchRes : Except ErrorMsg Response)
    (sup : Sup) :
    stateRead (alarm now fetchRes sup).2.1 =
      specTransition (stateRead sup) (specClassify fetchRes)
    ∧ drainBeforeWrite (alarm now fetchRes sup).1 false = true
    ∧ ∀ (a : Option Nat) (r m : Bool), stateRead ⟨none, a, r, m⟩ = ContainerState.starting := by
  refine ⟨?_, ?_, fun a r m => rfl⟩
  · rw [alarm_split]
    simpa [setAlarm_storageState, stateRead] using alarmBody_state fetchRes sup
  · rw [alarm_split]
    exact drainBeforeWrite_append _ _ _ (alarmBody_drain fetchRes sup)
      (fun d' => drainBeforeWrite_setAlarm _ _ d')

lemma monitorResolved_alarm (sup : Sup) : ((monitorResolved sup).2).alarm = sup.alarm := by
  obtain ⟨sst, al, rn, mn⟩ := sup
  cases sst with
  | none => simp [monitorResolved, stateTx, setState, stateRead]
  | some s => cases s <;> simp [monitorResolved, stateTx, setState, stateRead]

lemma start_alarm (opts : Option Nat) (sup : Sup) : ((start opts sup).2).alarm = sup.alarm := by
  cases hrn : sup.running <;> cases hmn : sup.monitor <;> simp [start, setState, hrn, hmn]

/-- Claim C2: on monitor resolution, running and unhealthy become stopped
while starting and failed are left unchanged; on monitor rejection the state
becomes failed regardless of the prior state. -/
theorem claim_C2_monitor_settlement (sup : Sup) :
    ((stateRead sup = ContainerState.running ∨ stateRead sup = ContainerState.unhealthy) →
      stateRead (monitorResolved sup).2 = ContainerState.stopped)
    ∧ (stateRead sup = ContainerState.starting → (monitorResolved sup).2 = sup)
    ∧ (stateRead sup = ContainerState.failed → (monitorResolved sup).2 = sup)
    ∧ stateRead (monitorRejected sup).2 = ContainerState.failed := by
  obtain ⟨sst, al, rn, mn⟩ := sup
  cases sst with
  | none =>
    refine ⟨?_, ?_, ?_, ?_⟩ <;>
      simp [stateRead, monitorResolved, monitorRejected, stateTx, setState]
  | some s =>
    cases s <;> refine ⟨?_, ?_, ?_, ?_⟩ <;>
      simp [stateRead, monitorResolved, monitorRejected, stateTx, setState]

/-- Claim C2 witness: the settlement transitions evaluated at concrete
persisted states. -/
theorem claim_C2_monitor_settlement_witness :
    stateRead (monitorResolved ⟨some ContainerState.running, none, true, true⟩).2 =
      ContainerState.stopped
    ∧ (monitorResolved ⟨some ContainerState.starting, none, true, true⟩).2 =
        ⟨some ContainerState.starting, none, true, true⟩
    ∧ (monitorResolved ⟨some ContainerState.failed, none, true, true⟩).2 =
        ⟨some ContainerState.failed, none, true, true⟩
    ∧ stateRead (monitorRejected ⟨some ContainerState.unhealthy, none, true, true⟩).2 =
        ContainerState.failed :=
  ⟨(claim_C2_monitor_settlement _).1 (Or.inl rfl),
   (claim_C2_monitor_settlement _).2.1 rfl,
   (claim_C2_monitor_settlement _).2.2.1 rfl,
   (claim_C2_monitor_settlement _).2.2.2⟩

/-- Claim C3 counterexample: the rejection handler performs a state mutation
(the write of failed) with the critical-section depth at zero — its trace
contains a `putState` but never enters the critical section, so not every
mutation of the monitor-completion handler is serialized. -/
theorem claim_C3_counterexample :
    stateOpsInCS (monitorRejected ⟨some ContainerState.running, none, true, true⟩).1 0 = false
    ∧ Ev.putState ContainerState.failed ∈
        (monitorRejected ⟨some ContainerState.running, none, true, true⟩).1 := by
  decide

/-- Claim C3 amended: only the success branch of the monitor-completion
handler runs inside the serialized critical section; the failure branch
writes failed directly, outside any critical section. -/
theorem claim_C3_amended_serialization (sup : Sup) :
    stateOpsInCS (monitorResolved sup).1 0 = true
    ∧ Ev.putState ContainerState.failed ∈ (monitorRejected sup).1
    ∧ Ev.enterCS ∉ (monitorRejected sup).1 := by
  obtain ⟨sst, al, rn, mn⟩ := sup
  cases sst with
  | none =>
    refine ⟨?_, ?_, ?_⟩ <;>
      simp [stateRead, monitorResolved, monitorRejected, stateTx, setState, stateOpsInCS]
  | some s =>
    cases s <;> refine ⟨?_, ?_, ?_⟩ <;>
      simp [stateRead, monitorResolved, monitorRejected, stateTx, setState, stateOpsInCS]

/-- Claim C3 amended witness: the two monitor-handler branches evaluated at a
concrete supervisor state. -/
theorem claim_C3_amended_serialization_witness :
    stateOpsInCS (monitorResolved ⟨some ContainerState.running, none, true, true⟩).1 0 = true
    ∧ Ev.putState ContainerState.failed ∈
        (monitorRejected ⟨some ContainerState.running, none, true, true⟩).1
    ∧ Ev.enterCS ∉ (monitorRejected ⟨some ContainerState.running, none, true, true⟩).1 :=
  claim_C3_amended_serialization ⟨some ContainerState.running, none, true, true⟩

/-- Claim C4: the try/finally shape of the tick reschedules on exit — for
every body, including one that ends in an error, the trace of `alarmWith` is
the body's trace followed by the `setAlarm` step, a timer is pending on
return, and only then does the body's error propagate; in particular the
concrete `alarm` always leaves a pending timer. -/
theorem claim_C4_schedule_on_exit (now : Nat) (sup : Sup)
    (body : Sup → List Ev × Sup × Option ErrorMsg) :
    ((alarmWith now body sup).2.1).alarm.isSome = true
    ∧ (alarmWith now body sup).1 = (body sup).1 ++ (setAlarm (body sup).2.1 (now + 500)).1
    ∧ (alarmWith now body sup).2.2 = (body sup).2.2
    ∧ ∀ fetchRes : Except ErrorMsg Response,
        ((alarm now fetchRes sup).2.1).alarm.isSome = true := by
  refine ⟨?_, ?_, ?_, fun fetchRes => ?_⟩
  · simp only [alarmWith]
    exact setAlarm_isSome _ _
  · simp [alarmWith]
  · simp [alarmWith]
  · rw [alarm_split]
    exact setAlarm_isSome _ _

/-- Claim C5: destroy deletes all persisted state, then the pending timer,
then requests runtime destroy, and always signals termination to its caller —
also when the runtime destroy call fails, in which case state and timer are
already gone before the termination signal. -/
theorem claim_C5_destroy_order_and_terminal (destroyErr : Option ErrorMsg) (sup : Sup) :
    (destroy destroyErr sup).1 =
      [Ev.deleteAll, Ev.deleteAlarm, Ev.containerDestroy, Ev.abortCtx]
    ∧ ((destroy destroyErr sup).2.1).storageState = none
    ∧ ((destroy destroyErr sup).2.1).alarm = none
    ∧ (destroy destroyErr sup).2.2 = true := by
  cases destroyErr <;> simp [destroy]

/-- Claim C6: the single probe of `healthCheck` (default port 8000) is
classified as follows — a 2xx response yields the ok tag with the body
drained, a non-2xx response is returned as-is, a transport failure whose
message indicates the listener is not accepting yields the not-listening tag,
one indicating no instance yields the no-container tag, and any other
transport failure is re-raised. -/
theorem claim_C6_healthCheck_classification :
    (∀ fetchRes : Except ErrorMsg Response, healthCheck fetchRes = healthCheck fetchRes 8000)
    ∧ (∀ (r : Response) (port : Nat), r.ok = true →
        healthCheck (.ok r) port = ([Ev.fetchHealth port, Ev.drainBody], .ok (.inl HCTag.ok)))
    ∧ (∀ (r : Response) (port : Nat), r.ok = false →
        healthCheck (.ok r) port = ([Ev.fetchHealth port], .ok (.inr r)))
    ∧ (∀ (e : ErrorMsg) (port : Nat), isNotListeningError e = true →
        healthCheck (.error e) port =
          ([Ev.fetchHealth port], .ok (.inl HCTag.not_listening)))
    ∧ (∀ (e : ErrorMsg) (port : Nat),
        isNotListeningError e = false → noContainerYetError e = true →
        healthCheck (.error e) port =
          ([Ev.fetchHealth port], .ok (.inl HCTag.no_container_yet)))
    ∧ (∀ (e : ErrorMsg) (port : Nat),
        isNotListeningError e = false → noContainerYetError e = false →
        healthCheck (.error e) port = ([Ev.fetchHealth port], .error e)) :=
  ⟨fun _ => rfl,
   fun r port h => healthCheck_2xx r port h,
   fun r port h => healthCheck_non2xx r port h,
   fun e port h => healthCheck_notListening e port h,
   fun e port h1 h2 => healthCheck_noContainer e port h1 h2,
   fun e port h1 h2 => healthCheck_raise e port h1 h2⟩

/-- Claim C6 witness: each probe outcome evaluated at a concrete response or
error message. -/
theorem claim_C6_healthCheck_classification_witness :
    healthCheck (.ok ⟨204⟩) 8000 = ([Ev.fetchHealth 8000, Ev.drainBody], .ok (.inl HCTag.ok))
    ∧ healthCheck (.ok ⟨503⟩) 8000 = ([Ev.fetchHealth 8000], .ok (.inr ⟨503⟩))
    ∧ healthCheck (.error ⟨notListeningPattern⟩) 8000 =
        ([Ev.fetchHealth 8000], .ok (.inl HCTag.not_listening))
    ∧ healthCheck (.error ⟨noContainerPattern⟩) 8000 =
        ([Ev.fetchHealth 8000], .ok (.inl HCTag.no_container_yet))
    ∧ healthCheck (.error ⟨"boom"⟩) 8000 = ([Ev.fetchHealth 8000], .error ⟨"boom"⟩) :=
  ⟨claim_C6_healthCheck_classification.2.1 ⟨204⟩ 8000 (by decide),
   claim_C6_healthCheck_classification.2.2.1 ⟨503⟩ 8000 (by decide),
   claim_C6_healthCheck_classification.2.2.2.1 ⟨notListeningPattern⟩ 8000 (by decide),
   claim_C6_healthCheck_classification.2.2.2.2.1 ⟨noContainerPattern⟩ 8000 (by decide) (by decide),
   claim_C6_healthCheck_classification.2.2.2.2.2 ⟨"boom"⟩ 8000 (by decide) (by decide)⟩

/-- Claim C7: start is idempotent while the runtime is running — with a
monitor tracked it does nothing at all; without one its only effect is to
attach a monitor; and only when the runtime is not running does it persist
starting, start the runtime with the given options, and attach a monitor. -/
theorem claim_C7_start_idempotent (opts : Option Nat) (storage : Option ContainerState)
    (aslot : Option Nat) :
    start opts ⟨storage, aslot, true, true⟩ = ([], ⟨storage, aslot, true, true⟩)
    ∧ start opts ⟨storage, aslot, true, false⟩ =
        ([Ev.attachMonitor], ⟨storage, aslot, true, true⟩)
    ∧ ∀ mn : Bool, start opts ⟨storage, aslot, false, mn⟩ =
        ([Ev.putState ContainerState.starting, Ev.sync, Ev.containerStart opts,
          Ev.attachMonitor],
         ⟨some ContainerState.starting, aslot, true, true⟩) := by
  refine ⟨?_, ?_, fun mn => ?_⟩ <;> simp [start, setState]

/-- Claim C9: no error escapes a tick — for every probe outcome the tick
returns without an exception, and in particular the generic transport error
that `healthCheck` re-raises is caught inside the tick and converted into the
failed-unless-starting transition. -/
theorem claim_C9_no_error_escapes_tick (now : Nat) (sup : Sup) :
    (∀ fetchRes : Except ErrorMsg Response, (alarm now fetchRes sup).2.2 = none)
    ∧ ∀ e : ErrorMsg, isNotListeningError e = false → noContainerYetError e = false →
        (healthCheck (.error e) 8000).2 = .error e
        ∧ (alarm now (.error e) sup).2.2 = none
        ∧ stateRead (alarm now (.error e) sup).2.1 =
            (if stateRead sup = ContainerState.starting then ContainerState.starting
             else ContainerState.failed) := by
  refine ⟨fun fetchRes => by rw [alarm_split], fun e h1 h2 => ⟨?_, ?_, ?_⟩⟩
  · rw [healthCheck_raise e 8000 h1 h2]
  · rw [alarm_split]
  · rw [alarm_split]
    have h := alarmBody_state (.error e) sup
    simp only [specClassify, h1, h2, if_neg, Bool.false_eq_true, if_false] at h
    simp only [stateRead, setAlarm_storageState]
    simpa [stateRead, specTransition] using h

/-- Claim C9 witness: a generic transport error at a concrete state — raised
by the probe, caught by the tick, converted to failed. -/
theorem claim_C9_no_error_escapes_tick_witness :
    (healthCheck (.error ⟨"boom"⟩) 8000).2 = .error ⟨"boom"⟩
    ∧ (alarm 0 (.error ⟨"boom"⟩) ⟨some ContainerState.running, none, true, true⟩).2.2 = none
    ∧ stateRead
        (alarm 0 (.error ⟨"boom"⟩) ⟨some ContainerState.running, none, true, true⟩).2.1 =
        (if stateRead ⟨some ContainerState.running, none, true, true⟩ = ContainerState.starting
         then ContainerState.starting else ContainerState.failed) :=
  (claim_C9_no_error_escapes_tick 0 _).2 ⟨"boom"⟩ (by decide) (by decide)

/-- Claim C10: constructing the supervisor over a context with no container
runtime handle always throws, before any initialisation event; with a handle
present, construction always succeeds. -/
theorem claim_C10_constructor_requires_handle (now : Nat) (storage : Option ContainerState)
    (aslot : Option Nat) :
    construct now none storage aslot = .error ⟨"container is not defined"⟩
    ∧ ∀ c : Bool, ∃ t sup, construct now (some c) storage aslot = .ok (t, sup) := by
  refine ⟨rfl, fun c => ?_⟩
  cases c <;> cases aslot <;> exact ⟨_, _, rfl⟩

/-- Claim C8: after construction, at every reachable quiescent point of the
supervisor's lifetime a timer is pending (construction and every tick
re-establish it, the other steps preserve it); and the scheduling operation
never overwrites a pending timer — when one is pending it is a read-only
no-op, and it sets a new wake-up exactly when none is pending. -/
theorem claim_C8_exactly_one_timer_pending :
    (∀ sup : Sup, Reaches sup → sup.alarm.isSome = true)
    ∧ (∀ (s : Sup) (v ts : Nat), s.alarm = some ts → setAlarm s v = ([Ev.getAlarm], s))
    ∧ (∀ (s : Sup) (v : Nat), s.alarm = none → ((setAlarm s v).2).alarm = some v) := by
  refine ⟨fun sup h => ?_, fun s v ts h => by simp [setAlarm, h], fun s v h => by simp [setAlarm, h]⟩
  induction h with
  | init now c storage aslot t sup hEq =>
    cases c <;> cases aslot <;>
      · simp [construct, setAlarm] at hEq
        rw [← hEq.2]
        rfl
  | fire sup now fetchRes hR hSome ih =>
    rw [alarm_split]
    exact setAlarm_isSome _ _
  | startStep sup opts hR ih =>
    rw [start_alarm]
    exact ih
  | monitorOkStep sup hR ih =>
    rw [monitorResolved_alarm]
    exact ih
  | monitorErrStep sup hR ih =>
    simpa [monitorRejected, setState] using ih

/-- Claim C8 witness: a freshly constructed supervisor has a pending timer,
and a pending timer is neither overwritten nor duplicated by `setAlarm`. -/
theorem claim_C8_exactly_one_timer_pending_witness :
    (Sup.mk none (some 3) false false).alarm.isSome = true
    ∧ setAlarm ⟨none, some 3, false, false⟩ 99 = ([Ev.getAlarm], ⟨none, some 3, false, false⟩)
    ∧ ((setAlarm ⟨none, none, false, false⟩ 7).2).alarm = some 7 :=
  ⟨claim_C8_exactly_one_timer_pending.1 ⟨none, some 3, false, false⟩
      (Reaches.init 3 false none none _ _ rfl),
   claim_C8_exactly_one_timer_pending.2.1 _ 99 3 rfl,
   claim_C8_exactly_one_timer_pending.2.2 _ 7 rfl⟩

end LoadBalancer
